import Mathlib

/-!
Shallow embedding of the freeapi ChatGPT service adapter stack
(src/services/chatgpt: cli-adapter.ts config manager, api-client.ts
transport client and session manager, error-handler.ts, service
adapter), together with theorems settling the frozen claims about it.

Strings that undergo byte-level processing (API keys, passwords,
encryption keys) are modelled as lists of UTF-16 code units
(`List Nat`), matching what `charCodeAt` yields in the source; other
strings are Lean `String`s.  JavaScript numbers are modelled as `Rat`
for configuration fields (which hold fractional values such as a
temperature of 0.7, written `mkRat 7 10`) and as `Int`/`Nat` where the source only ever
holds integers (timestamps, token counts, retry attempts).
-/

namespace FreeAPI

/-- Decidable equality for `Except`, needed to evaluate scripted
results with `decide`. -/
instance exceptDecEq {ε α : Type _} [DecidableEq ε] [DecidableEq α] :
    DecidableEq (Except ε α) := fun x y =>
  match x, y with
  | Except.ok a, Except.ok b => decidable_of_iff (a = b) (by simp)
  | Except.error a, Except.error b => decidable_of_iff (a = b) (by simp)
  | Except.ok _, Except.error _ => Decidable.isFalse (by simp)
  | Except.error _, Except.ok _ => Decidable.isFalse (by simp)

/-! ## Configuration data model (types.ts) -/

/-- The `ChatGPTMode` enum from types.ts. -/
inductive ChatGPTMode where
  | public
  | authenticated
deriving DecidableEq, Repr

/-- The `ChatGPTModel` enum from types.ts. -/
inductive ChatGPTModel where
  | gpt4
  | gpt4Turbo
  | gpt35Turbo
  | gpt35Turbo16k
deriving DecidableEq, Repr

/-- Credential block of `ChatGPTConfig` (types.ts).  The password is a
list of UTF-16 code units because it is fed through `xorEncrypt`;
the derived tokens are not needed by any claim and are elided. -/
structure ChatGPTCredentials where
  email : List Nat
  password : List Nat
deriving DecidableEq, Repr

/-- The `ChatGPTConfig` from types.ts (the `organization_id` field, unused by
every claim, is elided). -/
structure ChatGPTConfig where
  mode : ChatGPTMode
  enabled : Bool
  base_url : String
  api_key : Option (List Nat)
  model : ChatGPTModel
  max_tokens : Rat
  temperature : Rat
  top_p : Rat
  frequency_penalty : Rat
  presence_penalty : Rat
  timeout : Rat
  max_retries : Rat
  retry_delay : Rat
  credentials : Option ChatGPTCredentials
  requests_per_minute : Rat
  tokens_per_minute : Rat
deriving DecidableEq, Repr

/-- The `defaultConfig` object of `ChatGPTConfigManager` (cli-adapter.ts). -/
def defaultConfig : ChatGPTConfig where
  mode := ChatGPTMode.public
  enabled := true
  base_url := "https://api.openai.com/v1/"
  api_key := none
  model := ChatGPTModel.gpt35Turbo
  max_tokens := 4096
  temperature := mkRat 7 10
  top_p := 1
  frequency_penalty := 0
  presence_penalty := 0
  timeout := 30000
  max_retries := 3
  retry_delay := 1000
  requests_per_minute := 60
  tokens_per_minute := 150000
  credentials := none

/-! ## XOR "encryption" (ChatGPTConfigManager, cli-adapter.ts)

`xorEncrypt` XORs each UTF-16 code unit of the text with the key
(repeating the key), builds a string from the resulting code units,
and returns `Buffer.from(result).toString(base64)`: the UTF-8 bytes of
that string, base64 encoded.  We model each stage separately. -/

/-- The XOR loop inside `xorEncrypt`: code unit `i` of the text XORed
with code unit `i % key.length` of the key. -/
def xorCore (text key : List Nat) : List Nat :=
  (List.range text.length).map
    (fun i => Nat.xor (text.getD i 0) (key.getD (i % key.length) 0))

/-- UTF-8 bytes of a single UTF-16 code unit, as produced by
`Buffer.from` on a plain JS string.  Surrogate code units are mapped to
the replacement character U+FFFD; well paired surrogates (non-BMP text)
are not modelled, every input in this development stays in the BMP. -/
def utf8EncodeUnit (c : Nat) : List Nat :=
  if c < 128 then [c]
  else if c < 2048 then [192 + c / 64, 128 + c % 64]
  else if 55296 ≤ c ∧ c ≤ 57343 then [239, 191, 189]
  else [224 + c / 4096, 128 + c / 64 % 64, 128 + c % 64]

/-- UTF-8 bytes of a list of UTF-16 code units. -/
def utf8Encode (units : List Nat) : List Nat :=
  units.flatMap utf8EncodeUnit

/-- The base64 alphabet as ASCII codes: A-Z, a-z, 0-9, plus, slash. -/
def base64Table : List Nat :=
  (List.range 26).map (65 + ·) ++ (List.range 26).map (97 + ·) ++
    (List.range 10).map (48 + ·) ++ [43, 47]

/-- Standard base64 encoding of a byte list (ASCII codes of the output;
61 is the padding character). -/
def base64Encode : List Nat → List Nat
  | [] => []
  | [b0] =>
      let n := b0 * 65536
      [base64Table.getD (n / 262144 % 64) 0, base64Table.getD (n / 4096 % 64) 0, 61, 61]
  | [b0, b1] =>
      let n := b0 * 65536 + b1 * 256
      [base64Table.getD (n / 262144 % 64) 0, base64Table.getD (n / 4096 % 64) 0,
        base64Table.getD (n / 64 % 64) 0, 61]
  | b0 :: b1 :: b2 :: rest =>
      let n := b0 * 65536 + b1 * 256 + b2
      [base64Table.getD (n / 262144 % 64) 0, base64Table.getD (n / 4096 % 64) 0,
        base64Table.getD (n / 64 % 64) 0, base64Table.getD (n % 64) 0] ++
        base64Encode rest

/-- The `ChatGPTConfigManager.xorEncrypt`: XOR with the repeating key, then
base64-encode the UTF-8 bytes of the resulting string. -/
def xorEncrypt (text key : List Nat) : List Nat :=
  base64Encode (utf8Encode (xorCore text key))

/-- JS truthiness of an optional string: `undefined` and the empty
string are falsy. -/
def jsTruthy (s : Option (List Nat)) : Bool :=
  match s with
  | some l => l ≠ []
  | none => false

/-- The `ChatGPTConfigManager.encryptSensitiveData`: applies `xorEncrypt` to
a truthy `api_key` and to a truthy `credentials.password`. -/
def encryptSensitiveData (config : ChatGPTConfig) (encryptionKey : List Nat) :
    ChatGPTConfig :=
  let c1 :=
    if jsTruthy config.api_key then
      { config with api_key := config.api_key.map (xorEncrypt · encryptionKey) }
    else config
  match c1.credentials with
  | some cred =>
      if cred.password ≠ [] then
        let cred2 := { cred with password := xorEncrypt cred.password encryptionKey }
        { c1 with credentials := some cred2 }
      else c1
  | none => c1

/-- The `ChatGPTConfigManager.decryptSensitiveData`: the source applies the
very same `xorEncrypt` transform again (it does not base64-decode), so
this body is identical to `encryptSensitiveData`. -/
def decryptSensitiveData (config : ChatGPTConfig) (encryptionKey : List Nat) :
    ChatGPTConfig :=
  let c1 :=
    if jsTruthy config.api_key then
      { config with api_key := config.api_key.map (xorEncrypt · encryptionKey) }
    else config
  match c1.credentials with
  | some cred =>
      if cred.password ≠ [] then
        let cred2 := { cred with password := xorEncrypt cred.password encryptionKey }
        { c1 with credentials := some cred2 }
      else c1
  | none => c1

/-! ## Error classifier (error-handler.ts) -/

/-- The `ChatGPTErrorCode` enum from error-handler.ts. -/
inductive ChatGPTErrorCode where
  | NETWORK_ERROR
  | TIMEOUT_ERROR
  | CONNECTION_ERROR
  | API_ERROR
  | RATE_LIMIT_EXCEEDED
  | QUOTA_EXCEEDED
  | INVALID_REQUEST
  | AUTHENTICATION_ERROR
  | INVALID_CREDENTIALS
  | SESSION_EXPIRED
  | ACCESS_DENIED
  | CONFIGURATION_ERROR
  | INVALID_CONFIG
  | SERVICE_UNAVAILABLE
  | MAINTENANCE_MODE
  | CONTENT_FILTER
  | POLICY_VIOLATION
  | UNKNOWN_ERROR
deriving DecidableEq, Repr

/-- The fields of `ChatGPTError` that the classification and recovery
logic reads (details, timestamp and stack are elided). -/
structure ChatGPTError where
  code : ChatGPTErrorCode
  message : String
  retryable : Bool
deriving DecidableEq, Repr

/-- The `ChatGPTErrorHandler.handleAxiosError`, classification part: the
switch on `error.response?.status` with the fallthrough on
`error.code`.  `status = none` models a response-less transport error. -/
def handleAxiosError (status : Option Int) (transportCode : Option String)
    (message : String) : ChatGPTError :=
  let classify : ChatGPTErrorCode × Bool :=
    match status with
    | some 400 => (ChatGPTErrorCode.INVALID_REQUEST, false)
    | some 401 => (ChatGPTErrorCode.AUTHENTICATION_ERROR, false)
    | some 403 => (ChatGPTErrorCode.ACCESS_DENIED, false)
    | some 404 => (ChatGPTErrorCode.INVALID_REQUEST, false)
    | some 429 => (ChatGPTErrorCode.RATE_LIMIT_EXCEEDED, true)
    | some 500 => (ChatGPTErrorCode.SERVICE_UNAVAILABLE, true)
    | some 502 => (ChatGPTErrorCode.SERVICE_UNAVAILABLE, true)
    | some 503 => (ChatGPTErrorCode.SERVICE_UNAVAILABLE, true)
    | some 504 => (ChatGPTErrorCode.SERVICE_UNAVAILABLE, true)
    | _ =>
        if transportCode = some "ECONNABORTED" then
          (ChatGPTErrorCode.TIMEOUT_ERROR, true)
        else if transportCode = some "ENOTFOUND" ∨ transportCode = some "ECONNREFUSED" then
          (ChatGPTErrorCode.CONNECTION_ERROR, true)
        else
          (ChatGPTErrorCode.API_ERROR, false)
  { code := classify.1, message := message, retryable := classify.2 }

/-- The `message.toLowerCase()` (ASCII case folding suffices for every
keyword the classifier inspects); computed on the character list so
that everything stays kernel-reducible. -/
def jsToLower (s : List Char) : List Char :=
  s.map Char.toLower

/-- Does `sub` occur as a contiguous run inside `l`? -/
def listIncludes (sub : List Char) : List Char → Bool
  | [] => sub.isEmpty
  | c :: rest => sub.isPrefixOf (c :: rest) || listIncludes sub rest

/-- The `String.prototype.includes` test. -/
def strIncludes (s : List Char) (sub : String) : Bool :=
  listIncludes sub.toList s

/-- The `ChatGPTErrorHandler.handleGenericError`: keyword inspection of the
lowercased message, in source order, falling back to `UNKNOWN_ERROR`. -/
def handleGenericError (message : String) : ChatGPTError :=
  let m := jsToLower message.toList
  let classify : ChatGPTErrorCode × Bool :=
    if strIncludes m "network" ∨ strIncludes m "connection" then
      (ChatGPTErrorCode.NETWORK_ERROR, true)
    else if strIncludes m "timeout" then
      (ChatGPTErrorCode.TIMEOUT_ERROR, true)
    else if strIncludes m "auth" ∨ strIncludes m "login" ∨ strIncludes m "credential" then
      (ChatGPTErrorCode.AUTHENTICATION_ERROR, false)
    else if strIncludes m "config" ∨ strIncludes m "setting" then
      (ChatGPTErrorCode.CONFIGURATION_ERROR, false)
    else if strIncludes m "rate limit" ∨ strIncludes m "too many requests" then
      (ChatGPTErrorCode.RATE_LIMIT_EXCEEDED, true)
    else if strIncludes m "quota" ∨ strIncludes m "limit" then
      (ChatGPTErrorCode.QUOTA_EXCEEDED, false)
    else if strIncludes m "content" ∨ strIncludes m "filter" then
      (ChatGPTErrorCode.CONTENT_FILTER, false)
    else
      (ChatGPTErrorCode.UNKNOWN_ERROR, false)
  { code := classify.1, message := message, retryable := classify.2 }

/-- A `RecoveryAction` (error-handler.ts); the description string is
elided, the acted-on fields are kept. -/
structure RecoveryAction where
  action : String
  automatic : Bool
  priority : Nat
deriving DecidableEq, Repr

/-- Insert an action into a priority-sorted list (stable). -/
def insertByPriority (a : RecoveryAction) : List RecoveryAction → List RecoveryAction
  | [] => [a]
  | b :: rest =>
      if a.priority ≤ b.priority then a :: b :: rest else b :: insertByPriority a rest

/-- Stable insertion sort by ascending priority, modelling
`actions.sort((a, b) => a.priority - b.priority)`. -/
def sortByPriority : List RecoveryAction → List RecoveryAction
  | [] => []
  | a :: rest => insertByPriority a (sortByPriority rest)

/-- The `ChatGPTErrorHandler.getRecoveryActions`: the per-code action table,
sorted by ascending priority. -/
def getRecoveryActions (code : ChatGPTErrorCode) : List RecoveryAction :=
  let actions : List RecoveryAction :=
    match code with
    | ChatGPTErrorCode.NETWORK_ERROR | ChatGPTErrorCode.CONNECTION_ERROR =>
        [⟨"check_network", false, 1⟩, ⟨"retry", true, 2⟩]
    | ChatGPTErrorCode.TIMEOUT_ERROR =>
        [⟨"increase_timeout", true, 1⟩, ⟨"retry", true, 2⟩]
    | ChatGPTErrorCode.RATE_LIMIT_EXCEEDED =>
        [⟨"wait", true, 1⟩, ⟨"reduce_frequency", true, 2⟩]
    | ChatGPTErrorCode.AUTHENTICATION_ERROR | ChatGPTErrorCode.INVALID_CREDENTIALS =>
        [⟨"reauthenticate", false, 1⟩, ⟨"check_credentials", false, 2⟩]
    | ChatGPTErrorCode.SESSION_EXPIRED =>
        [⟨"refresh_session", true, 1⟩, ⟨"reauthenticate", false, 2⟩]
    | ChatGPTErrorCode.CONFIGURATION_ERROR =>
        [⟨"validate_config", true, 1⟩, ⟨"reset_config", false, 2⟩]
    | ChatGPTErrorCode.SERVICE_UNAVAILABLE =>
        [⟨"retry", true, 1⟩, ⟨"check_status", false, 2⟩]
    | ChatGPTErrorCode.CONTENT_FILTER =>
        [⟨"modify_content", false, 1⟩, ⟨"disable_filter", false, 2⟩]
    | _ =>
        [⟨"retry", true, 1⟩, ⟨"report", false, 2⟩]
  sortByPriority actions

/-- The `ChatGPTErrorHandler.shouldAutoRecover`: at least one recovery
action is automatic. -/
def shouldAutoRecover (error : ChatGPTError) : Bool :=
  (getRecoveryActions error.code).any (·.automatic)

/-- The `ChatGPTErrorHandler.getUserFriendlyMessage`: the per-code lookup
table of one-line user-safe messages. -/
def getUserFriendlyMessage (error : ChatGPTError) : String :=
  match error.code with
  | ChatGPTErrorCode.NETWORK_ERROR =>
      "Network connection issue. Please check your internet connection."
  | ChatGPTErrorCode.TIMEOUT_ERROR =>
      "Request timed out. The server is taking too long to respond."
  | ChatGPTErrorCode.CONNECTION_ERROR =>
      "Cannot connect to the server. Please try again later."
  | ChatGPTErrorCode.API_ERROR => "API request failed. Please try again."
  | ChatGPTErrorCode.RATE_LIMIT_EXCEEDED =>
      "Rate limit exceeded. Please wait before making more requests."
  | ChatGPTErrorCode.QUOTA_EXCEEDED =>
      "Usage quota exceeded. Please check your account limits."
  | ChatGPTErrorCode.INVALID_REQUEST => "Invalid request. Please check your input."
  | ChatGPTErrorCode.AUTHENTICATION_ERROR =>
      "Authentication failed. Please check your credentials."
  | ChatGPTErrorCode.INVALID_CREDENTIALS =>
      "Invalid credentials. Please verify your login information."
  | ChatGPTErrorCode.SESSION_EXPIRED => "Session expired. Please log in again."
  | ChatGPTErrorCode.ACCESS_DENIED =>
      "Access denied. You do not have permission to perform this action."
  | ChatGPTErrorCode.CONFIGURATION_ERROR =>
      "Configuration error. Please check your settings."
  | ChatGPTErrorCode.INVALID_CONFIG =>
      "Invalid configuration. Please update your settings."
  | ChatGPTErrorCode.SERVICE_UNAVAILABLE =>
      "Service temporarily unavailable. Please try again later."
  | ChatGPTErrorCode.MAINTENANCE_MODE =>
      "Service is under maintenance. Please try again later."
  | ChatGPTErrorCode.CONTENT_FILTER =>
      "Content filtered. Your message may violate content policies."
  | ChatGPTErrorCode.POLICY_VIOLATION =>
      "Policy violation detected. Please review the terms of service."
  | ChatGPTErrorCode.UNKNOWN_ERROR =>
      "An unexpected error occurred. Please try again."


/-! ## Transport client rate budget (ChatGPTAPIClient, api-client.ts) -/

/-- The `RateLimitInfo` from types.ts. -/
structure RateLimitInfo where
  limit : Int
  remaining : Int
  reset : Int
  used : Int
deriving DecidableEq, Repr

/-- The rate-limit response headers the client reads
(`x-ratelimit-limit-requests`, `x-ratelimit-remaining-requests`,
`x-ratelimit-reset-requests`), each optional. -/
structure RateLimitHeaders where
  limitRequests : Option Int
  remainingRequests : Option Int
  resetRequests : Option Int
deriving DecidableEq, Repr

/-- A response carrying none of the rate-limit headers. -/
def noRateHeaders : RateLimitHeaders := ⟨none, none, none⟩

/-- The `rateLimitInfo` initialised in the `ChatGPTAPIClient`
constructor: full budget, reset one minute from now. -/
def initRateLimitInfo (requestsPerMinute now : Int) : RateLimitInfo where
  limit := requestsPerMinute
  remaining := requestsPerMinute
  reset := now + 60000
  used := 0

/-- The `ChatGPTAPIClient.updateRateLimitInfo`: overwrite each field present
in the response headers, then recompute `used = limit - remaining`. -/
def updateRateLimitInfo (info : RateLimitInfo) (h : RateLimitHeaders) : RateLimitInfo :=
  let i1 := match h.limitRequests with
    | some v => { info with limit := v }
    | none => info
  let i2 := match h.remainingRequests with
    | some v => { i1 with remaining := v }
    | none => i1
  let i3 := match h.resetRequests with
    | some v => { i2 with reset := v * 1000 }
    | none => i2
  { i3 with used := i3.limit - i3.remaining }

/-- The `ChatGPTAPIClient.resetRateLimit`: restore the configured budget and
push the reset time one minute past the current time. -/
def resetRateLimit (requestsPerMinute now : Int) : RateLimitInfo where
  limit := requestsPerMinute
  remaining := requestsPerMinute
  reset := now + 60000
  used := 0

/-- The rate-limit check at the top of `ChatGPTAPIClient.request`: when
`remaining <= 0`, wait until the reset time (only if it is in the
future) and then reset the budget.  Returns the budget in force for the
request together with the waited duration, if any.  After a positive
wait, `Date.now()` inside `resetRateLimit` is the old reset time. -/
def requestRateCheck (requestsPerMinute now : Int) (info : RateLimitInfo) :
    RateLimitInfo × Option Int :=
  if info.remaining ≤ 0 then
    let waitTime := info.reset - now
    if waitTime > 0 then (resetRateLimit requestsPerMinute (now + waitTime), some waitTime)
    else (resetRateLimit requestsPerMinute now, none)
  else (info, none)

/-- One successful `request()` call at time `now` whose response carries
the headers `h`: the entry rate-limit check followed by the response
interceptor updating the budget from the headers. -/
def requestSuccess (requestsPerMinute now : Int) (info : RateLimitInfo)
    (h : RateLimitHeaders) : RateLimitInfo × Option Int :=
  let checked := requestRateCheck requestsPerMinute now info
  (updateRateLimitInfo checked.1 h, checked.2)

/-- The budget after a sequence of successful calls, given the time and
response headers of each call. -/
def runRequests (requestsPerMinute : Int) (info : RateLimitInfo) :
    List (Int × RateLimitHeaders) → RateLimitInfo
  | [] => info
  | (now, h) :: rest =>
      runRequests requestsPerMinute (requestSuccess requestsPerMinute now info h).1 rest

/-! ## Transport client retry backoff (ChatGPTAPIClient.retryWithBackoff) -/

/-- The un-jittered backoff delay for a retry attempt:
`Math.min(1000 * Math.pow(2, attempt), 30000)`. -/
def backoffDelay (attempt : Nat) : Nat :=
  min (1000 * 2 ^ attempt) 30000

/-- The delay actually slept: backoff delay plus the jitter
`Math.random() * 1000` (a value in `[0, 1000)`). -/
def backoffTotalDelay (attempt jitter : Nat) : Nat :=
  backoffDelay attempt + jitter

/-- The `ChatGPTAPIClient.retryWithBackoff`, scripted: each list entry is
the outcome of one `request` attempt — `Except.ok` a success,
`Except.error status` a failure with that HTTP status.  A new attempt
first checks `attempt > max_retries` and raises the terminal error;
a failure with status at least 500 recurses with `attempt + 1`, any
other failure is re-thrown (modelled by its status). -/
def retryWithBackoff (maxRetries : Nat) : List (Except Int Nat) → Nat → Except String Nat
  | outcomes, attempt =>
      if attempt > maxRetries then Except.error "Max retries exceeded"
      else
        match outcomes with
        | [] => Except.error "script exhausted"
        | Except.ok v :: _ => Except.ok v
        | Except.error status :: rest =>
            if status ≥ 500 then retryWithBackoff maxRetries rest (attempt + 1)
            else Except.error "non-retryable request error"

/-! ## Service orchestrator retry loop (service-adapter.ts)

`ChatGPTServiceAdapter.sendMessage` catches a failed `service.chat`,
classifies the error, and — when `shouldAutoRecover` holds and the
error is retryable — waits one second and calls *itself* again; any
other failure surfaces the user-safe message.  The outcome of each
successive `service.chat` attempt is supplied as a script: `Except.ok`
is a successful chat, `Except.error msg` a failure whose raw generic
error message is `msg`. -/

def sendMessageScript : List (Except String Nat) → Except String Nat
  | [] => Except.error "script exhausted"
  | Except.ok v :: _ => Except.ok v
  | Except.error msg :: rest =>
      let e := handleGenericError msg
      if shouldAutoRecover e ∧ e.retryable then
        sendMessageScript rest
      else
        Except.error (getUserFriendlyMessage e)


/-! ## Session manager (ChatGPTSessionManager, api-client.ts)

Conversations are kept in a JS `Map` keyed by conversation id; we model
it as a list of conversations whose ids are unique for every state the
manager can actually build (`mapSet` replaces an existing entry and
appends fresh ones).  Only the fields the claims touch are kept on
`Conversation` (`id`, `token_count`); title, messages, timestamps and
model are payload that no modelled operation inspects. -/

structure Conversation where
  id : Nat
  token_count : Int
deriving DecidableEq, Repr

/-- The `Map.get(id)`. -/
def mapGet (cs : List Conversation) (id : Nat) : Option Conversation :=
  cs.find? (fun c => c.id == id)

/-- The `Map.set(c.id, c)`: replace the entry with the same id, or append. -/
def mapSet (cs : List Conversation) (c : Conversation) : List Conversation :=
  if (mapGet cs c.id).isSome then
    cs.map (fun x => if x.id == c.id then c else x)
  else
    cs ++ [c]

/-- The `Map.delete(id)`. -/
def mapDelete (cs : List Conversation) (id : Nat) : List Conversation :=
  cs.filter (fun c => ! (c.id == id))

/-- The `SessionData` from api-client.ts; tokens and identity strings not
read by any claim are elided, the fields the claims are about
(expiry bookkeeping, conversation map, aggregate token count) are kept. -/
structure SessionData where
  session_id : String
  access_token : Option (List Nat)
  expires_at : Int
  created_at : Int
  last_activity : Int
  conversations : List Conversation
  token_count : Int
deriving DecidableEq, Repr

/-- The `ChatGPTSessionManager.addConversation` on the current session:
store the conversation, bump activity, add its token count. -/
def addConversation (s : SessionData) (now : Int) (c : Conversation) : SessionData :=
  { s with
      conversations := mapSet s.conversations c
      last_activity := now
      token_count := s.token_count + c.token_count }

/-- The `ChatGPTSessionManager.deleteConversation` on the current session:
when the id is present, remove it, subtract its token count and bump
activity, returning `true`; otherwise return `false`. -/
def deleteConversation (s : SessionData) (now : Int) (id : Nat) : SessionData × Bool :=
  match mapGet s.conversations id with
  | some conv =>
      ({ s with
          conversations := mapDelete s.conversations id
          token_count := s.token_count - conv.token_count
          last_activity := now }, true)
  | none => (s, false)

/-- The `ChatGPTSessionManager.updateConversation` on the current session:
when an entry with the same id exists its token count is swapped for
the new one; either way the conversation is stored, activity is bumped
and `true` is returned. -/
def updateConversation (s : SessionData) (now : Int) (c : Conversation) :
    SessionData × Bool :=
  let s1 :=
    match mapGet s.conversations c.id with
    | some oldConv =>
        { s with token_count := s.token_count - oldConv.token_count + c.token_count }
    | none => s
  ({ s1 with
      conversations := mapSet s1.conversations c
      last_activity := now }, true)

/-- One conversation-map operation of the session manager. -/
inductive SessionOp where
  | add (now : Int) (c : Conversation)
  | update (now : Int) (c : Conversation)
  | delete (now : Int) (id : Nat)
deriving DecidableEq, Repr

/-- Apply one operation to the current session. -/
def applySessionOp (s : SessionData) : SessionOp → SessionData
  | SessionOp.add now c => addConversation s now c
  | SessionOp.update now c => (updateConversation s now c).1
  | SessionOp.delete now id => (deleteConversation s now id).1

/-- Apply a sequence of operations to the current session. -/
def applySessionOps (s : SessionData) : List SessionOp → SessionData
  | [] => s
  | op :: rest => applySessionOps (applySessionOp s op) rest

/-! ## Token accounting of the session conversation map (claim C4) -/

/-- The total token count of the conversations stored in the map. -/
def tokenSum (cs : List Conversation) : Int :=
  (cs.map (fun c => c.token_count)).sum

/-- Validity of one operation at a state: conversations carry
nonnegative token counts, and an update only targets a stored id. -/
def validOp (s : SessionData) : SessionOp → Bool
  | SessionOp.add _ c => decide (0 ≤ c.token_count)
  | SessionOp.update _ c =>
      decide (0 ≤ c.token_count) && (mapGet s.conversations c.id).isSome
  | SessionOp.delete _ _ => true

/-- Validity of a sequence of operations, each at the state it acts on. -/
def validOps (s : SessionData) : List SessionOp → Bool
  | [] => true
  | op :: rest => validOp s op && validOps (applySessionOp s op) rest

/-- The session invariant: stored ids are pairwise distinct, stored
token counts are nonnegative, and the aggregate is at least the sum of
the stored counts. -/
def SessionInv (s : SessionData) : Prop :=
  (s.conversations.map (fun c => c.id)).Nodup ∧
  (∀ c ∈ s.conversations, 0 ≤ c.token_count) ∧
  tokenSum s.conversations ≤ s.token_count

/-! ## Authentication (ChatGPTSessionManager, api-client.ts) -/

/-- The `AuthenticationResponse` from types.ts (tokens not read by any
claim elided). -/
structure AuthenticationResponse where
  authenticated : Bool
  user_id : Option String
  email : Option String
  access_token : Option (List Nat)
  expires_in : Option Int
deriving DecidableEq, Repr

/-- JS `v || d` on an optional number: `undefined` and `0` are falsy. -/
def jsOrInt (v : Option Int) (d : Int) : Int :=
  match v with
  | some x => if x = 0 then d else x
  | none => d

/-- The `ChatGPTSessionManager.authenticateWithChatGPT`: an API key (truthy)
makes authentication succeed immediately with `expires_in: 0` (the
source comment reads: API keys do not expire); without one the explicit
not-implemented error is thrown. -/
def authenticateWithChatGPT (config : ChatGPTConfig) (email : String) :
    Except String AuthenticationResponse :=
  if jsTruthy config.api_key then
    Except.ok
      { authenticated := true
        user_id := some "api_user"
        email := some email
        access_token := config.api_key
        expires_in := some 0 }
  else
    Except.error "Web login not yet implemented. Please use API key authentication."

/-- The `ChatGPTSessionManager.createSession`:
`expiresAt = now + (authResponse.expires_in || 3600) * 1000`. -/
def createSession (now : Int) (sessionId : String) (r : AuthenticationResponse) :
    SessionData where
  session_id := sessionId
  access_token := r.access_token
  expires_at := now + jsOrInt r.expires_in 3600 * 1000
  created_at := now
  last_activity := now
  conversations := []
  token_count := 0

/-- The `ChatGPTSessionManager.authenticate`: rejected outside authenticated
mode; otherwise `authenticateWithChatGPT`, and on an authenticated
response a new session is created and registered as current. -/
def authenticate (config : ChatGPTConfig) (now : Int) (sessionId : String)
    (email : String) : Except String (AuthenticationResponse × Option SessionData) :=
  if config.mode ≠ ChatGPTMode.authenticated then
    Except.error "Authentication only available in authenticated mode"
  else
    match authenticateWithChatGPT config email with
    | Except.error e => Except.error e
    | Except.ok r =>
        if r.authenticated then Except.ok (r, some (createSession now sessionId r))
        else Except.ok (r, none)

/-- The `ChatGPTSessionManager.cleanupExpiredSessions`: drop every session
with `expires_at < now`; returns the surviving sessions and the number
removed. -/
def cleanupExpiredSessions (sessions : List SessionData) (now : Int) :
    List SessionData × Nat :=
  ((sessions.filter (fun s => ¬ s.expires_at < now)),
    (sessions.filter (fun s => s.expires_at < now)).length)


/-! ## Config store: merge, validate, load (ChatGPTConfigManager)

A stored configuration file is a partial record: every field optional
(absent fields fall back to the defaults during the object spread
`\x7b ...defaultConfig, ...userConfig \x7d`).  URL validity is delegated by
the source to the host URL parser (`new URL(url)`); the embedding takes
that parser as a boolean-valued parameter `isValidUrl`. -/

structure PartialConfig where
  mode : Option ChatGPTMode
  enabled : Option Bool
  base_url : Option String
  api_key : Option (List Nat)
  model : Option ChatGPTModel
  max_tokens : Option Rat
  temperature : Option Rat
  top_p : Option Rat
  frequency_penalty : Option Rat
  presence_penalty : Option Rat
  timeout : Option Rat
  max_retries : Option Rat
  retry_delay : Option Rat
  credentials : Option ChatGPTCredentials
  requests_per_minute : Option Rat
  tokens_per_minute : Option Rat
deriving DecidableEq, Repr

/-- The partial record that sets nothing at all. -/
def emptyPartialConfig : PartialConfig where
  mode := none
  enabled := none
  base_url := none
  api_key := none
  model := none
  max_tokens := none
  temperature := none
  top_p := none
  frequency_penalty := none
  presence_penalty := none
  timeout := none
  max_retries := none
  retry_delay := none
  credentials := none
  requests_per_minute := none
  tokens_per_minute := none

/-- The `ChatGPTConfigManager.mergeWithDefaults`: spread the user record
over the defaults field-by-field, then apply the mode-specific rules —
public mode deletes the credential block, authenticated mode rewrites
the base URL to the chat backend unless an endpoint other than the
default was supplied. -/
def mergeWithDefaults (userConfig : PartialConfig) : ChatGPTConfig :=
  let merged : ChatGPTConfig :=
    { mode := userConfig.mode.getD defaultConfig.mode
      enabled := userConfig.enabled.getD defaultConfig.enabled
      base_url := userConfig.base_url.getD defaultConfig.base_url
      api_key := match userConfig.api_key with
        | some k => some k
        | none => defaultConfig.api_key
      model := userConfig.model.getD defaultConfig.model
      max_tokens := userConfig.max_tokens.getD defaultConfig.max_tokens
      temperature := userConfig.temperature.getD defaultConfig.temperature
      top_p := userConfig.top_p.getD defaultConfig.top_p
      frequency_penalty := userConfig.frequency_penalty.getD defaultConfig.frequency_penalty
      presence_penalty := userConfig.presence_penalty.getD defaultConfig.presence_penalty
      timeout := userConfig.timeout.getD defaultConfig.timeout
      max_retries := userConfig.max_retries.getD defaultConfig.max_retries
      retry_delay := userConfig.retry_delay.getD defaultConfig.retry_delay
      credentials := match userConfig.credentials with
        | some c => some c
        | none => defaultConfig.credentials
      requests_per_minute :=
        userConfig.requests_per_minute.getD defaultConfig.requests_per_minute
      tokens_per_minute :=
        userConfig.tokens_per_minute.getD defaultConfig.tokens_per_minute }
  if merged.mode = ChatGPTMode.public then
    { merged with credentials := none }
  else if merged.mode = ChatGPTMode.authenticated then
    if merged.base_url = "" ∨ merged.base_url = defaultConfig.base_url then
      { merged with base_url := "https://chat.openai.com/backend-api/" }
    else merged
  else merged

/-- The `ConfigValidationResult` from cli-adapter.ts. -/
structure ConfigValidationResult where
  valid : Bool
  errors : List String
  warnings : List String
deriving DecidableEq, Repr

/-- The credentials guard of the authenticated-mode validation:
`!config.credentials?.email || !config.credentials?.password` (a
missing block, or an empty — falsy — email or password). -/
def credentialsMissing (c : Option ChatGPTCredentials) : Bool :=
  match c with
  | some cred => cred.email.isEmpty || cred.password.isEmpty
  | none => true

/-- The `ChatGPTConfigManager.validateConfig`: collect structural errors and
soft warnings in source order; `valid` iff no error was pushed.  The
mode-membership check can never fail in the typed embedding (every
`ChatGPTMode` value is an enum member) and pushes nothing.  Error
strings keep the constant text of the source (interpolated tails
elided). -/
def validateConfig (isValidUrl : String → Bool) (config : ChatGPTConfig) :
    ConfigValidationResult :=
  let errors : List String :=
    (if config.base_url = "" ∨ ¬ isValidUrl config.base_url then
      ["Invalid base URL"] else []) ++
    (if config.max_tokens < 1 ∨ config.max_tokens > 16384 then
      ["max_tokens must be between 1 and 16384"] else []) ++
    (if config.temperature < 0 ∨ config.temperature > 2 then
      ["temperature must be between 0 and 2"] else []) ++
    (if config.top_p < 0 ∨ config.top_p > 1 then
      ["top_p must be between 0 and 1"] else []) ++
    (if config.frequency_penalty < -2 ∨ config.frequency_penalty > 2 then
      ["frequency_penalty must be between -2 and 2"] else []) ++
    (if config.presence_penalty < -2 ∨ config.presence_penalty > 2 then
      ["presence_penalty must be between -2 and 2"] else []) ++
    (if config.mode = ChatGPTMode.authenticated ∧
        credentialsMissing config.credentials then
      ["Authenticated mode requires email and password"] else [])
  let warnings : List String :=
    (if config.timeout < 1000 ∨ config.timeout > 300000 then
      ["timeout should be between 1000 and 300000 ms"] else []) ++
    (if config.mode = ChatGPTMode.authenticated ∧
        config.base_url = defaultConfig.base_url then
      ["Authenticated mode should use chat.openai.com backend URL"] else []) ++
    (if config.requests_per_minute < 1 then
      ["requests_per_minute should be at least 1"] else []) ++
    (if config.tokens_per_minute < 1000 then
      ["tokens_per_minute should be at least 1000"] else [])
  { valid := errors.isEmpty, errors := errors, warnings := warnings }

/-- The body of the `try` block of `ChatGPTConfigManager.loadConfig`:
with a stored file, merge it over the defaults and validate; a
validation result with errors throws, otherwise the merged record is
returned.  Without a file the defaults are persisted and returned. -/
def loadConfigInner (isValidUrl : String → Bool) (file : Option PartialConfig) :
    Except String ChatGPTConfig :=
  match file with
  | some configData =>
      let mergedConfig := mergeWithDefaults configData
      let validation := validateConfig isValidUrl mergedConfig
      if ¬ validation.valid ∧ validation.errors.length > 0 then
        Except.error "Invalid configuration"
      else
        Except.ok mergedConfig
  | none => Except.ok defaultConfig

/-- The `ChatGPTConfigManager.loadConfig`: the surrounding `catch` logs any
thrown error and falls back to a copy of the defaults, so the caller
always receives a configuration. -/
def loadConfig (isValidUrl : String → Bool) (file : Option PartialConfig) :
    ChatGPTConfig :=
  match loadConfigInner isValidUrl file with
  | Except.ok c => c
  | Except.error _ => defaultConfig


/-! ## Concrete inputs used by the claim theorems -/

/-- A configuration holding the one-character API key "a" (code 97) and
credentials with password "a"; the encryption key used with it is "k"
(code 107). -/
def roundTripConfig : ChatGPTConfig :=
  { defaultConfig with
      api_key := some [97]
      credentials := some { email := [101], password := [97] } }

/-- A fresh session as `createSession` builds it (empty conversation
map, zero token count). -/
def freshSession : SessionData :=
  createSession 0 "sess_0" { authenticated := true, user_id := none, email := none,
                             access_token := none, expires_in := none }

/-- The fresh session holding conversation 1 with 5 tokens. -/
def demoSession : SessionData :=
  addConversation freshSession 3 { id := 1, token_count := 5 }

/-- Authenticated-mode configuration with the API key "k". -/
def authApiKeyConfig : ChatGPTConfig :=
  { defaultConfig with mode := ChatGPTMode.authenticated, api_key := some [107] }

/-- Authenticated-mode configuration without an API key. -/
def authNoKeyConfig : ChatGPTConfig :=
  { defaultConfig with mode := ChatGPTMode.authenticated }

/-- The authentication response produced for `authApiKeyConfig`
(`expires_in: 0`, the source comment reads: API keys do not expire). -/
def apiKeyAuthResponse : AuthenticationResponse where
  authenticated := true
  user_id := some "api_user"
  email := some "user"
  access_token := some [107]
  expires_in := some 0

/-- A stored public-mode configuration file that sets `max_tokens: 0`,
a structurally invalid value. -/
def pubBadRecord : PartialConfig :=
  { emptyPartialConfig with mode := some ChatGPTMode.public, max_tokens := some 0 }

/-- A stored configuration file that only selects public mode. -/
def onlyPublicRecord : PartialConfig :=
  { emptyPartialConfig with mode := some ChatGPTMode.public }

/-- A stored configuration file that only selects authenticated mode
(no credentials, no endpoint override). -/
def onlyAuthRecord : PartialConfig :=
  { emptyPartialConfig with mode := some ChatGPTMode.authenticated }

/-! ## Claim theorems -/

/-- C1: the claim reads — for every non-empty secret and key,
`decryptSensitiveData(encryptSensitiveData(config, key), key)` restores
the `api_key` and `credentials.password` fields unchanged.  The code
violates this: the XOR stage alone is an involution (first conjunct,
showing the round-trip is plainly the intent), but `xorEncrypt`
base64-encodes after XORing and `decryptSensitiveData` applies
`xorEncrypt` again instead of inverting the base64 step, so the
round-trip fails already for the one-character secret "a" under the
one-character key "k". -/
theorem c1_decrypt_encrypt_roundtrip_fails :
    xorCore (xorCore [97] [107]) [107] = [97] ∧
    xorEncrypt [97] [107] = [67, 103, 61, 61] ∧
    decryptSensitiveData (encryptSensitiveData roundTripConfig [107]) [107] ≠
      roundTripConfig ∧
    (decryptSensitiveData (encryptSensitiveData roundTripConfig [107]) [107]).api_key =
      some [75, 65, 120, 87, 86, 103, 61, 61] := by
  decide

/-- C3: the claim reads — a retryable auto-recoverable failure of
`sendMessage` is retried exactly once, and a second failure surfaces a
user-safe message.  The code violates this (contradicting its own
comment "For now, just retry once for retryable errors"): the retry is
a full recursive `sendMessage` call, so a script that fails twice with
a retryable timeout and succeeds on the third attempt returns that
third-attempt success instead of surfacing an error after the single
allowed retry. -/
theorem c3_retry_not_limited_to_once :
    (handleGenericError "Request timeout").retryable = true ∧
    shouldAutoRecover (handleGenericError "Request timeout") = true ∧
    sendMessageScript
      [Except.error "Request timeout", Except.error "Request timeout", Except.ok 42] =
      Except.ok 42 := by
  decide

/-- C7: the claim reads — with an API key, authentication succeeds
immediately and the session is never removed by the expiry sweep;
without a key it fails with the explicit not-implemented error; outside
authenticated mode it is rejected.  The first two and the last parts
hold, but the never-expires part is violated: `createSession` computes
`now + (expires_in || 3600) * 1000` and the `0` declared for API keys
is falsy, so the session expires 3600 s after creation and the sweep
at time 3600001 removes it. -/
theorem c7_api_key_session_expires :
    authenticate defaultConfig 0 "sess_0" "user" =
      Except.error "Authentication only available in authenticated mode" ∧
    authenticate authNoKeyConfig 0 "sess_0" "user" =
      Except.error "Web login not yet implemented. Please use API key authentication." ∧
    authenticate authApiKeyConfig 0 "sess_0" "user" =
      Except.ok (apiKeyAuthResponse, some (createSession 0 "sess_0" apiKeyAuthResponse)) ∧
    (createSession 0 "sess_0" apiKeyAuthResponse).expires_at = 3600000 ∧
    cleanupExpiredSessions [createSession 0 "sess_0" apiKeyAuthResponse] 3600001 =
      ([], 1) := by
  decide

/-- C2, counterexample: the claim reads — after N consecutive
successful `request()` calls with N ≤ limit, `remaining = limit − N`.
With the configured limit 60, one successful call whose response
carries no rate-limit headers leaves `remaining` at 60, not 59: the
client never decrements the budget itself. -/
theorem c2_counterexample_remaining_not_decremented :
    (runRequests 60 (initRateLimitInfo 60 0) [(1000, noRateHeaders)]).remaining = 60 ∧
    (60 : Int) ≠ 60 - 1 := by
  decide

/-- C4, counterexample: the claim reads — the session token total never
becomes negative under any sequence of conversation operations.  It
does: `updateConversation` with a conversation id absent from the map
inserts the conversation without adding its tokens, and the subsequent
`deleteConversation` subtracts them, driving a fresh session total to
−5. -/
theorem c4_counterexample_negative_total :
    (applySessionOps freshSession
      [SessionOp.update 1 { id := 1, token_count := 5 },
       SessionOp.delete 2 1]).token_count = -5 ∧
    ((-5 : Int) < 0) := by
  decide

/-- C5, counterexample: the claim reads — every status in the 5xx range
maps to `service_unavailable` with retryable true.  Status 501 is not
among the matched cases (500, 502, 503, 504) and falls through to the
generic `api` kind, not retryable. -/
theorem c5_counterexample_501_not_service_unavailable :
    handleAxiosError (some 501) none "Not Implemented" =
      { code := ChatGPTErrorCode.API_ERROR, message := "Not Implemented",
        retryable := false } ∧
    ChatGPTErrorCode.API_ERROR ≠ ChatGPTErrorCode.SERVICE_UNAVAILABLE := by
  decide

/-- C6, counterexample: the claim reads — `validateConfig` accepts any
public-mode record after the merge.  A public-mode record that sets
`max_tokens: 0` is rejected even under a URL parser that accepts every
string: the numeric range checks apply in public mode too. -/
theorem c6_counterexample_public_record_rejected :
    (mergeWithDefaults pubBadRecord).mode = ChatGPTMode.public ∧
    (validateConfig (fun _ => true) (mergeWithDefaults pubBadRecord)).valid = false := by
  decide

/-- C8, counterexample: the claim reads — a structural validation
failure makes `load()` fail, the error propagating to the caller.  With
a stored file whose merge fails validation (`max_tokens: 0`), the inner
body does throw, but `loadConfig` catches the error and returns the
defaults: the caller sees a successful load. -/
theorem c8_counterexample_load_swallows_error :
    (loadConfigInner (fun _ => true) (some pubBadRecord)).isOk = false ∧
    loadConfig (fun _ => true) (some pubBadRecord) = defaultConfig := by
  decide


/-- Appending a conversation whose id is absent makes it findable. -/
theorem mapGet_append_self (cs : List Conversation) (c : Conversation)
    (h : mapGet cs c.id = none) : mapGet (cs ++ [c]) c.id = some c := by
  induction cs with
  | nil => simp [mapGet, List.find?]
  | cons x rest ih =>
      simp only [mapGet] at h ih ⊢
      rw [List.cons_append]
      cases hb : (x.id == c.id) with
      | true =>
          simp only [List.find?, hb] at h
          exact Option.noConfusion h
      | false =>
          simp only [List.find?, hb] at h ⊢
          exact ih h

/-- C10: updating a conversation whose id is not in the current session
map still inserts it, returns true and bumps the last-activity time,
but leaves the session aggregate token count unchanged. -/
theorem c10_update_missing_inserts_without_tokens
    (s : SessionData) (now : Int) (c : Conversation)
    (h : mapGet s.conversations c.id = none) :
    (updateConversation s now c).2 = true ∧
    mapGet (updateConversation s now c).1.conversations c.id = some c ∧
    (updateConversation s now c).1.token_count = s.token_count ∧
    (updateConversation s now c).1.last_activity = now := by
  have hset : mapSet s.conversations c = s.conversations ++ [c] := by
    simp [mapSet, h]
  refine ⟨rfl, ?_, ?_, ?_⟩
  · simp only [updateConversation, h, hset]
    exact mapGet_append_self s.conversations c h
  · simp [updateConversation, h]
  · simp [updateConversation, h]

/-- C10 witness: the update of conversation 1 (5 tokens) on the fresh
session, whose map does not contain it. -/
theorem c10_update_missing_inserts_without_tokens_witness :
    mapGet freshSession.conversations 1 = none ∧
    ((updateConversation freshSession 7 { id := 1, token_count := 5 }).2 = true ∧
     mapGet (updateConversation freshSession 7 { id := 1, token_count := 5 }).1.conversations
       1 = some { id := 1, token_count := 5 } ∧
     (updateConversation freshSession 7 { id := 1, token_count := 5 }).1.token_count =
       freshSession.token_count ∧
     (updateConversation freshSession 7 { id := 1, token_count := 5 }).1.last_activity = 7) :=
  ⟨by decide,
    c10_update_missing_inserts_without_tokens freshSession 7
      { id := 1, token_count := 5 } (by decide)⟩

/-- C9: for a retry attempt `a ≥ 1` with jitter `j < 1000`, the slept
delay is the capped exponential plus the jitter and totals at most
31000 ms; below the 30000 ms cap the un-jittered component strictly
increases with the attempt number; and an attempt number beyond the
configured maximum raises the terminal max-retries error. -/
theorem c9_backoff_policy (a j a2 maxRetries att : Nat)
    (outcomes : List (Except Int Nat))
    (ha : 1 ≤ a) (hj : j < 1000) (hcap : backoffDelay a2 < 30000)
    (hatt : att > maxRetries) :
    backoffTotalDelay a j = min (1000 * 2 ^ a) 30000 + j ∧
    backoffTotalDelay a j ≤ 31000 ∧
    backoffDelay a2 < backoffDelay (a2 + 1) ∧
    retryWithBackoff maxRetries outcomes att = Except.error "Max retries exceeded" := by
  refine ⟨rfl, ?_, ?_, ?_⟩
  · have h1 : backoffDelay a ≤ 30000 := Nat.min_le_right _ _
    simp only [backoffTotalDelay]
    omega
  · have h2 : 1000 * 2 ^ a2 < 30000 := by
      by_contra hge
      push_neg at hge
      have : backoffDelay a2 = 30000 := by
        simp [backoffDelay, Nat.min_eq_right hge]
      omega
    have hd : backoffDelay a2 = 1000 * 2 ^ a2 := by
      simp [backoffDelay, Nat.min_eq_left (Nat.le_of_lt h2)]
    have hone : 1 ≤ 2 ^ a2 := Nat.one_le_two_pow
    have hnext : 1000 * 2 ^ a2 < 1000 * 2 ^ (a2 + 1) := by
      rw [pow_succ]
      omega
    have : 1000 * 2 ^ a2 < backoffDelay (a2 + 1) := by
      simp only [backoffDelay]
      exact lt_min hnext h2
    omega
  · rw [retryWithBackoff.eq_def]
    simp [hatt]

/-- C9 witness: attempt 2 with zero jitter, attempt 1 below the cap,
and attempt 4 against a maximum of 3 retries. -/
theorem c9_backoff_policy_witness :
    1 ≤ 2 ∧ 0 < 1000 ∧ backoffDelay 1 < 30000 ∧ 4 > 3 ∧
    (backoffTotalDelay 2 0 = min (1000 * 2 ^ 2) 30000 + 0 ∧
     backoffTotalDelay 2 0 ≤ 31000 ∧
     backoffDelay 1 < backoffDelay (1 + 1) ∧
     retryWithBackoff 3 [] 4 = Except.error "Max retries exceeded") :=
  ⟨by decide, by decide, by decide, by decide,
    c9_backoff_policy 2 0 1 3 4 [] (by decide) (by decide) (by decide) (by decide)⟩


/-- With a positive configured limit, a successful call whose response
carries no rate-limit headers leaves `remaining` and `limit` at the
configured limit. -/
theorem requestSuccess_noHeaders_invariant (rpm now : Int) (hrpm : 0 < rpm)
    (info : RateLimitInfo) (hrem : info.remaining = rpm) (hlim : info.limit = rpm) :
    (requestSuccess rpm now info noRateHeaders).1.remaining = rpm ∧
    (requestSuccess rpm now info noRateHeaders).1.limit = rpm := by
  have hpos : ¬ rpm ≤ 0 := by omega
  simp [requestSuccess, requestRateCheck, hpos, updateRateLimitInfo, noRateHeaders,
    hrem, hlim]

/-- Running header-less successful calls preserves the full budget. -/
theorem runRequests_noHeaders (rpm : Int) (hrpm : 0 < rpm) (times : List Int) :
    ∀ info : RateLimitInfo, info.remaining = rpm → info.limit = rpm →
      (runRequests rpm info (times.map (fun t => (t, noRateHeaders)))).remaining = rpm := by
  induction times with
  | nil => intro info hrem _; simpa [runRequests] using hrem
  | cons t rest ih =>
      intro info hrem hlim
      have hstep := requestSuccess_noHeaders_invariant rpm t hrpm info hrem hlim
      simp only [List.map, runRequests]
      exact ih _ hstep.1 hstep.2

/-- C2, amended: the client never decrements `remaining` itself — after
any number of successful `request()` calls whose responses carry no
rate-limit headers, `remaining` still equals the configured limit (in
particular it is not `limit − N` and never negative); and a call that
finds `remaining ≤ 0` resets the budget to the configured limit before
proceeding, suspending for `reset − now` exactly when the reset time
lies in the future. -/
theorem c2_rate_budget_amended (rpm now0 now : Int) (times : List Int)
    (info : RateLimitInfo) (hrpm : 0 < rpm) (hexh : info.remaining ≤ 0) :
    (runRequests rpm (initRateLimitInfo rpm now0)
        (times.map (fun t => (t, noRateHeaders)))).remaining = rpm ∧
    0 ≤ (runRequests rpm (initRateLimitInfo rpm now0)
        (times.map (fun t => (t, noRateHeaders)))).remaining ∧
    (requestRateCheck rpm now info).1.remaining = rpm ∧
    (requestRateCheck rpm now info).2 =
      (if info.reset - now > 0 then some (info.reset - now) else none) := by
  have hrun := runRequests_noHeaders rpm hrpm times (initRateLimitInfo rpm now0)
    (by simp [initRateLimitInfo]) (by simp [initRateLimitInfo])
  refine ⟨hrun, by omega, ?_, ?_⟩
  · by_cases hw : info.reset - now > 0
    · simp [requestRateCheck, hexh, hw, resetRateLimit]
    · simp [requestRateCheck, hexh, hw, resetRateLimit]
  · by_cases hw : info.reset - now > 0
    · simp [requestRateCheck, hexh, hw]
    · simp [requestRateCheck, hexh, hw]

/-- C2 witness: limit 60, three header-less calls, and an exhausted
budget (remaining 0, reset at 105) checked at time 5. -/
theorem c2_rate_budget_amended_witness :
    (0 : Int) < 60 ∧
    ({ limit := 60, remaining := 0, reset := 105, used := 60 } :
      RateLimitInfo).remaining ≤ 0 ∧
    ((runRequests 60 (initRateLimitInfo 60 0)
        ([1, 2, 3].map (fun t => (t, noRateHeaders)))).remaining = 60 ∧
     0 ≤ (runRequests 60 (initRateLimitInfo 60 0)
        ([1, 2, 3].map (fun t => (t, noRateHeaders)))).remaining ∧
     (requestRateCheck 60 5
        { limit := 60, remaining := 0, reset := 105, used := 60 }).1.remaining = 60 ∧
     (requestRateCheck 60 5
        { limit := 60, remaining := 0, reset := 105, used := 60 }).2 =
       (if (105 : Int) - 5 > 0 then some ((105 : Int) - 5) else none)) :=
  ⟨by decide, by decide,
    c2_rate_budget_amended 60 0 5 [1, 2, 3]
      { limit := 60, remaining := 0, reset := 105, used := 60 }
      (by decide) (by decide)⟩


/-- The `valid` field is by construction the emptiness of the error list. -/
theorem validateConfig_valid_eq (isValidUrl : String → Bool) (c : ChatGPTConfig) :
    (validateConfig isValidUrl c).valid =
      (validateConfig isValidUrl c).errors.isEmpty := rfl

/-- C8, amended: a structural validation failure of the stored file
does not propagate out of `loadConfig` — the thrown error is caught and
the defaults are returned — while a file whose merge validates cleanly
(soft warnings at most) yields the merged configuration. -/
theorem c8_load_amended (isValidUrl : String → Bool) (data data2 : PartialConfig)
    (hstruct : (validateConfig isValidUrl (mergeWithDefaults data)).errors ≠ [])
    (hsoft : (validateConfig isValidUrl (mergeWithDefaults data2)).errors = []) :
    loadConfig isValidUrl (some data) = defaultConfig ∧
    loadConfig isValidUrl (some data2) = mergeWithDefaults data2 := by
  constructor
  · have hv : (validateConfig isValidUrl (mergeWithDefaults data)).valid = false := by
      rw [validateConfig_valid_eq]
      simpa [List.isEmpty_iff] using hstruct
    have hlen : (validateConfig isValidUrl (mergeWithDefaults data)).errors.length > 0 :=
      List.length_pos.mpr hstruct
    simp [loadConfig, loadConfigInner, hv, hlen]
  · have hv2 : (validateConfig isValidUrl (mergeWithDefaults data2)).valid = true := by
      rw [validateConfig_valid_eq, hsoft]
      rfl
    simp [loadConfig, loadConfigInner, hv2]

/-- C8 witness: the structurally invalid stored file (`max_tokens: 0`)
and the clean public-mode file, under the all-accepting URL parser. -/
theorem c8_load_amended_witness :
    (validateConfig (fun _ => true) (mergeWithDefaults pubBadRecord)).errors ≠ [] ∧
    (validateConfig (fun _ => true) (mergeWithDefaults onlyPublicRecord)).errors = [] ∧
    (loadConfig (fun _ => true) (some pubBadRecord) = defaultConfig ∧
     loadConfig (fun _ => true) (some onlyPublicRecord) =
       mergeWithDefaults onlyPublicRecord) :=
  ⟨by decide, by decide,
    c8_load_amended (fun _ => true) pubBadRecord onlyPublicRecord
      (by decide) (by decide)⟩

/-- C6, amended: after the merge, authenticated-mode records missing a
credentials email or password are rejected; public-mode records have
their credential block stripped by the merge and a record that merely
selects public mode passes validation (under a URL parser accepting the
default endpoint); and merging an authenticated-mode record without an
explicit endpoint override rewrites the base URL to the authenticated
backend endpoint.  (Not every public-mode record is accepted: the
structural field checks still apply, see the counterexample.) -/
theorem c6_merge_validate_amended (isValidUrl : String → Bool)
    (r r2 r3 : PartialConfig)
    (hauth : (mergeWithDefaults r).mode = ChatGPTMode.authenticated)
    (hmiss : credentialsMissing (mergeWithDefaults r).credentials = true)
    (hpub : r2.mode = some ChatGPTMode.public)
    (hauth3 : r3.mode = some ChatGPTMode.authenticated)
    (hurl3 : r3.base_url = none)
    (hu : isValidUrl "https://api.openai.com/v1/" = true) :
    (validateConfig isValidUrl (mergeWithDefaults r)).valid = false ∧
    (mergeWithDefaults r2).credentials = none ∧
    (validateConfig isValidUrl (mergeWithDefaults onlyPublicRecord)).valid = true ∧
    (mergeWithDefaults r3).base_url = "https://chat.openai.com/backend-api/" := by
  refine ⟨?_, ?_, ?_, ?_⟩
  · rw [validateConfig_valid_eq]
    simp [validateConfig, hauth, hmiss, List.isEmpty_iff]
  · simp [mergeWithDefaults, hpub]
  · have hm : mergeWithDefaults onlyPublicRecord = defaultConfig := by decide
    rw [hm, validateConfig_valid_eq]
    simp only [validateConfig]
    simp only [defaultConfig, hu]
    decide
  · simp [mergeWithDefaults, hauth3, hurl3]

/-- C6 witness: the record selecting only authenticated mode (merged
credentials missing, merged endpoint not overridden), the record
selecting only public mode, and the all-accepting URL parser. -/
theorem c6_merge_validate_amended_witness :
    (mergeWithDefaults onlyAuthRecord).mode = ChatGPTMode.authenticated ∧
    credentialsMissing (mergeWithDefaults onlyAuthRecord).credentials = true ∧
    onlyPublicRecord.mode = some ChatGPTMode.public ∧
    onlyAuthRecord.mode = some ChatGPTMode.authenticated ∧
    onlyAuthRecord.base_url = none ∧
    ((validateConfig (fun _ => true) (mergeWithDefaults onlyAuthRecord)).valid = false ∧
     (mergeWithDefaults onlyPublicRecord).credentials = none ∧
     (validateConfig (fun _ => true) (mergeWithDefaults onlyPublicRecord)).valid = true ∧
     (mergeWithDefaults onlyAuthRecord).base_url =
       "https://chat.openai.com/backend-api/") :=
  ⟨by decide, by decide, by decide, by decide, by decide,
    c6_merge_validate_amended (fun _ => true) onlyAuthRecord onlyPublicRecord
      onlyAuthRecord (by decide) (by decide) (by decide) (by decide) (by decide) rfl⟩


/-- C5, amended: the status mapping holds for 400, 401, 403, 429 and
for the four matched server-error statuses 500, 502, 503, 504 (not the
whole 5xx range: 501 falls through to the generic `api` kind, see the
counterexample); transport-level codes map to timeout/connection with
retryable true; a generic message containing none of the inspected
keywords falls back to `unknown`. -/
theorem c5_classifier_amended (tc : Option String) (st : Int) (msg msg2 : String)
    (h5xx : st = 500 ∨ st = 502 ∨ st = 503 ∨ st = 504)
    (hk1 : strIncludes (jsToLower msg2.toList) "network" = false)
    (hk2 : strIncludes (jsToLower msg2.toList) "connection" = false)
    (hk3 : strIncludes (jsToLower msg2.toList) "timeout" = false)
    (hk4 : strIncludes (jsToLower msg2.toList) "auth" = false)
    (hk5 : strIncludes (jsToLower msg2.toList) "login" = false)
    (hk6 : strIncludes (jsToLower msg2.toList) "credential" = false)
    (hk7 : strIncludes (jsToLower msg2.toList) "config" = false)
    (hk8 : strIncludes (jsToLower msg2.toList) "setting" = false)
    (hk9 : strIncludes (jsToLower msg2.toList) "rate limit" = false)
    (hk10 : strIncludes (jsToLower msg2.toList) "too many requests" = false)
    (hk11 : strIncludes (jsToLower msg2.toList) "quota" = false)
    (hk12 : strIncludes (jsToLower msg2.toList) "limit" = false)
    (hk13 : strIncludes (jsToLower msg2.toList) "content" = false)
    (hk14 : strIncludes (jsToLower msg2.toList) "filter" = false) :
    handleAxiosError (some 400) tc msg =
      { code := ChatGPTErrorCode.INVALID_REQUEST, message := msg, retryable := false } ∧
    handleAxiosError (some 401) tc msg =
      { code := ChatGPTErrorCode.AUTHENTICATION_ERROR, message := msg,
        retryable := false } ∧
    handleAxiosError (some 403) tc msg =
      { code := ChatGPTErrorCode.ACCESS_DENIED, message := msg, retryable := false } ∧
    handleAxiosError (some 429) tc msg =
      { code := ChatGPTErrorCode.RATE_LIMIT_EXCEEDED, message := msg,
        retryable := true } ∧
    handleAxiosError (some st) tc msg =
      { code := ChatGPTErrorCode.SERVICE_UNAVAILABLE, message := msg,
        retryable := true } ∧
    handleAxiosError none (some "ECONNABORTED") msg =
      { code := ChatGPTErrorCode.TIMEOUT_ERROR, message := msg, retryable := true } ∧
    handleAxiosError none (some "ENOTFOUND") msg =
      { code := ChatGPTErrorCode.CONNECTION_ERROR, message := msg, retryable := true } ∧
    handleAxiosError none (some "ECONNREFUSED") msg =
      { code := ChatGPTErrorCode.CONNECTION_ERROR, message := msg, retryable := true } ∧
    handleGenericError msg2 =
      { code := ChatGPTErrorCode.UNKNOWN_ERROR, message := msg2, retryable := false } := by
  refine ⟨rfl, rfl, rfl, rfl, ?_, rfl, rfl, rfl, ?_⟩
  · rcases h5xx with h | h | h | h <;> subst h <;> rfl
  · simp only [String.toList] at *
    simp [handleGenericError, hk1, hk2, hk3, hk4, hk5, hk6, hk7, hk8, hk9, hk10,
      hk11, hk12, hk13, hk14]

/-- C5 witness: status 502, connection-refused transport code, and the
keyword-free message "boom". -/
theorem c5_classifier_amended_witness :
    ((502 : Int) = 500 ∨ (502 : Int) = 502 ∨ (502 : Int) = 503 ∨ (502 : Int) = 504) ∧
    strIncludes (jsToLower "boom".toList) "network" = false ∧
    strIncludes (jsToLower "boom".toList) "limit" = false ∧
    (handleAxiosError (some 400) none "m" =
      { code := ChatGPTErrorCode.INVALID_REQUEST, message := "m", retryable := false } ∧
     handleAxiosError (some 401) none "m" =
      { code := ChatGPTErrorCode.AUTHENTICATION_ERROR, message := "m",
        retryable := false } ∧
     handleAxiosError (some 403) none "m" =
      { code := ChatGPTErrorCode.ACCESS_DENIED, message := "m", retryable := false } ∧
     handleAxiosError (some 429) none "m" =
      { code := ChatGPTErrorCode.RATE_LIMIT_EXCEEDED, message := "m",
        retryable := true } ∧
     handleAxiosError (some 502) none "m" =
      { code := ChatGPTErrorCode.SERVICE_UNAVAILABLE, message := "m",
        retryable := true } ∧
     handleAxiosError none (some "ECONNABORTED") "m" =
      { code := ChatGPTErrorCode.TIMEOUT_ERROR, message := "m", retryable := true } ∧
     handleAxiosError none (some "ENOTFOUND") "m" =
      { code := ChatGPTErrorCode.CONNECTION_ERROR, message := "m", retryable := true } ∧
     handleAxiosError none (some "ECONNREFUSED") "m" =
      { code := ChatGPTErrorCode.CONNECTION_ERROR, message := "m", retryable := true } ∧
     handleGenericError "boom" =
      { code := ChatGPTErrorCode.UNKNOWN_ERROR, message := "boom",
        retryable := false }) :=
  ⟨by decide, by decide, by decide,
    c5_classifier_amended none 502 "m" "boom" (by decide) (by decide) (by decide)
      (by decide) (by decide) (by decide) (by decide) (by decide) (by decide)
      (by decide) (by decide) (by decide) (by decide) (by decide) (by decide)⟩


theorem tokenSum_nonneg (cs : List Conversation)
    (h : ∀ c ∈ cs, 0 ≤ c.token_count) : 0 ≤ tokenSum cs := by
  apply List.sum_nonneg
  intro x hx
  rcases List.mem_map.mp hx with ⟨c, hc, rfl⟩
  exact h c hc

theorem tokenSum_append (cs : List Conversation) (c : Conversation) :
    tokenSum (cs ++ [c]) = tokenSum cs + c.token_count := by
  simp [tokenSum]

/-- The sum over a cons cell. -/
theorem tokenSum_cons (x : Conversation) (rest : List Conversation) :
    tokenSum (x :: rest) = x.token_count + tokenSum rest := by
  simp [tokenSum]

/-- Deleting a stored conversation removes exactly its token count from
the sum (ids distinct). -/
theorem tokenSum_delete (cs : List Conversation) (id : Nat) (c : Conversation)
    (hnd : (cs.map (fun x => x.id)).Nodup) (hf : mapGet cs id = some c) :
    tokenSum (mapDelete cs id) = tokenSum cs - c.token_count := by
  induction cs with
  | nil => simp [mapGet] at hf
  | cons x rest ih =>
      rw [List.map_cons, List.nodup_cons] at hnd
      simp only [mapGet] at hf ih
      cases hb : (x.id == id) with
      | true =>
          simp only [List.find?, hb] at hf
          injection hf with hxc
          subst hxc
          have hxid : x.id = id := eq_of_beq hb
          have hkeep : mapDelete rest id = rest := by
            apply List.filter_eq_self.mpr
            intro a ha
            have hne : a.id ≠ id := by
              intro hcontra
              exact hnd.1 (List.mem_map.mpr ⟨a, ha, by rw [hcontra, hxid]⟩)
            simp [hne]
          simp only [mapDelete, List.filter_cons, hb, Bool.not_true]
          rw [if_neg (by simp)]
          simp only [mapDelete] at hkeep
          rw [hkeep, tokenSum_cons]
          omega
      | false =>
          simp only [List.find?, hb] at hf
          have hrec := ih hnd.2 hf
          simp only [mapDelete, List.filter_cons, hb, Bool.not_false] at hrec ⊢
          rw [if_pos (by simp), tokenSum_cons, tokenSum_cons, hrec]
          omega

/-- Replacing a stored conversation swaps its token count in the sum
(ids distinct). -/
theorem tokenSum_replace (cs : List Conversation) (c old : Conversation)
    (hnd : (cs.map (fun x => x.id)).Nodup) (hf : mapGet cs c.id = some old) :
    tokenSum (cs.map (fun x => if x.id == c.id then c else x)) =
      tokenSum cs - old.token_count + c.token_count := by
  induction cs with
  | nil => simp [mapGet] at hf
  | cons x rest ih =>
      rw [List.map_cons, List.nodup_cons] at hnd
      simp only [mapGet] at hf ih
      cases hb : (x.id == c.id) with
      | true =>
          simp only [List.find?, hb] at hf
          injection hf with hxc
          subst hxc
          have hxid : x.id = c.id := eq_of_beq hb
          have hkeep : rest.map (fun y => if y.id == c.id then c else y) = rest := by
            have hcongr : ∀ y ∈ rest, (if y.id == c.id then c else y) = id y := by
              intro y hy
              have hne : y.id ≠ c.id := by
                intro hcontra
                exact hnd.1 (List.mem_map.mpr ⟨y, hy, by rw [hcontra, hxid]⟩)
              simp [hne]
            rw [List.map_congr_left hcongr, List.map_id]
          rw [List.map_cons, if_pos hb, hkeep, tokenSum_cons, tokenSum_cons]
          omega
      | false =>
          simp only [List.find?, hb] at hf
          have hrec := ih hnd.2 hf
          rw [List.map_cons, if_neg (by simp [hb]), tokenSum_cons, tokenSum_cons, hrec]
          omega


/-- Every element of `mapSet cs c` is `c` or was already stored. -/
theorem mem_mapSet (cs : List Conversation) (c x : Conversation)
    (hx : x ∈ mapSet cs c) : x = c ∨ x ∈ cs := by
  simp only [mapSet] at hx
  by_cases hfound : (mapGet cs c.id).isSome
  · rw [if_pos hfound] at hx
    rcases List.mem_map.mp hx with ⟨y, hy, hrepl⟩
    by_cases hb : (y.id == c.id) = true
    · left; rw [← hrepl, if_pos hb]
    · right; rw [← hrepl, if_neg hb]; exact hy
  · rw [if_neg hfound] at hx
    rcases List.mem_append.mp hx with h | h
    · right; exact h
    · left; simpa using h
/-- The `mapSet` operation keeps the stored ids pairwise distinct. -/
theorem nodup_mapSet (cs : List Conversation) (c : Conversation)
    (hnd : (cs.map (fun x => x.id)).Nodup) :
    ((mapSet cs c).map (fun x => x.id)).Nodup := by
  simp only [mapSet]
  by_cases hfound : (mapGet cs c.id).isSome
  · rw [if_pos hfound]
    have hids : (cs.map (fun x => if x.id == c.id then c else x)).map (fun x => x.id) =
        cs.map (fun x => x.id) := by
      rw [List.map_map]
      apply List.map_congr_left
      intro y _
      by_cases hb : (y.id == c.id) = true
      · simp only [Function.comp, if_pos hb]
        exact (eq_of_beq hb).symm
      · simp only [Function.comp, if_neg hb]
    rw [hids]
    exact hnd
  · rw [if_neg hfound]
    have hnone : mapGet cs c.id = none := Option.not_isSome_iff_eq_none.mp hfound
    have habs : ∀ x ∈ cs, (x.id == c.id) = false := by
      intro x hxmem
      have := List.find?_eq_none.mp hnone x hxmem
      simpa using this
    rw [List.map_append]
    simp only [List.map_cons, List.map_nil]
    rw [List.nodup_append]
    refine ⟨hnd, List.nodup_singleton _, ?_⟩
    intro a ha hb
    simp only [List.mem_singleton] at hb
    rcases List.mem_map.mp ha with ⟨y, hy, rfl⟩
    have := habs y hy
    rw [hb] at this
    simp at this
/-- Elements surviving `mapDelete` were already stored. -/
theorem mem_mapDelete (cs : List Conversation) (id : Nat) (x : Conversation)
    (hx : x ∈ mapDelete cs id) : x ∈ cs :=
  (List.mem_filter.mp hx).1
/-- The `mapDelete` operation keeps the stored ids pairwise distinct. -/
theorem nodup_mapDelete (cs : List Conversation) (id : Nat)
    (hnd : (cs.map (fun x => x.id)).Nodup) :
    ((mapDelete cs id).map (fun x => x.id)).Nodup :=
  hnd.sublist ((List.filter_sublist cs).map (fun x => x.id))
/-- The deleted id is no longer found. -/
theorem mapGet_mapDelete (cs : List Conversation) (id : Nat) :
    mapGet (mapDelete cs id) id = none := by
  apply List.find?_eq_none.mpr
  intro x hx
  have hp := (List.mem_filter.mp hx).2
  simp only [Bool.not_eq_true'] at hp
  simp [hp]
/-- Each valid operation preserves the session invariant. -/
theorem sessionInv_step (s : SessionData) (op : SessionOp)
    (hop : validOp s op = true) (hinv : SessionInv s) :
    SessionInv (applySessionOp s op) := by
  obtain ⟨hnd, hmem, hsum⟩ := hinv
  cases op with
  | add now c =>
      have hc : 0 ≤ c.token_count := by simpa [validOp] using hop
      refine ⟨nodup_mapSet _ _ hnd, ?_, ?_⟩
      · intro x hx
        rcases mem_mapSet _ _ _ hx with rfl | hxs
        · exact hc
        · exact hmem x hxs
      · show tokenSum (mapSet s.conversations c) ≤ s.token_count + c.token_count
        cases hcase : mapGet s.conversations c.id with
        | some old =>
            have hrepl := tokenSum_replace s.conversations c old hnd hcase
            have holdmem : old ∈ s.conversations := List.mem_of_find?_eq_some hcase
            have hold : 0 ≤ old.token_count := hmem old holdmem
            simp only [mapSet, hcase, Option.isSome_some, if_pos]
            omega
        | none =>
            simp only [mapSet, hcase, Option.isSome_none]
            rw [if_neg (by simp), tokenSum_append]
            omega
  | update now c =>
      have hop2 : 0 ≤ c.token_count ∧ (mapGet s.conversations c.id).isSome = true := by
        simpa [validOp] using hop
      rcases Option.isSome_iff_exists.mp hop2.2 with ⟨old, hcase⟩
      have holdmem : old ∈ s.conversations := List.mem_of_find?_eq_some hcase
      have hold : 0 ≤ old.token_count := hmem old holdmem
      have hrepl := tokenSum_replace s.conversations c old hnd hcase
      simp only [applySessionOp, updateConversation, hcase]
      refine ⟨nodup_mapSet _ _ hnd, ?_, ?_⟩
      · intro x hx
        rcases mem_mapSet _ _ _ hx with rfl | hxs
        · exact hop2.1
        · exact hmem x hxs
      · show tokenSum (mapSet s.conversations c) ≤
          s.token_count - old.token_count + c.token_count
        simp only [mapSet, hcase, Option.isSome_some, if_pos]
        omega
  | delete now id =>
      cases hcase : mapGet s.conversations id with
      | none =>
          simp only [applySessionOp, deleteConversation, hcase]
          exact ⟨hnd, hmem, hsum⟩
      | some conv =>
          have hdel := tokenSum_delete s.conversations id conv hnd hcase
          simp only [applySessionOp, deleteConversation, hcase]
          refine ⟨nodup_mapDelete _ _ hnd, ?_, ?_⟩
          · intro x hx
            exact hmem x (mem_mapDelete _ _ _ hx)
          · show tokenSum (mapDelete s.conversations id) ≤
              s.token_count - conv.token_count
            omega
/-- A valid operation sequence preserves the session invariant. -/
theorem sessionInv_ops (ops : List SessionOp) :
    ∀ s : SessionData, validOps s ops = true → SessionInv s →
      SessionInv (applySessionOps s ops) := by
  induction ops with
  | nil => intro s _ hinv; simpa [applySessionOps] using hinv
  | cons op rest ih =>
      intro s hval hinv
      rw [validOps, Bool.and_eq_true] at hval
      exact ih _ hval.2 (sessionInv_step s op hval.1 hinv)
/-- The invariant forces a nonnegative aggregate token count. -/
theorem sessionInv_token_nonneg (s : SessionData) (hinv : SessionInv s) :
    0 ≤ s.token_count :=
  le_trans (tokenSum_nonneg _ hinv.2.1) hinv.2.2
/-- C4, amended: deleting a conversation stored in the current session
map removes it and decreases the aggregate token count by exactly that
conversation token count, and under any sequence of `addConversation`,
`updateConversation` and `deleteConversation` operations on a fresh
session in which updates only target stored ids and conversation token
counts are nonnegative, the aggregate stays nonnegative.  (Without the
restriction on updates the aggregate can go negative, see the
counterexample.) -/
theorem c4_token_accounting_amended (s : SessionData) (now : Int) (id : Nat)
    (c : Conversation) (ops : List SessionOp)
    (hfind : mapGet s.conversations id = some c)
    (hvalid : validOps freshSession ops = true) :
    (deleteConversation s now id).1.token_count = s.token_count - c.token_count ∧
    mapGet (deleteConversation s now id).1.conversations id = none ∧
    (deleteConversation s now id).2 = true ∧
    0 ≤ (applySessionOps freshSession ops).token_count := by
  refine ⟨?_, ?_, ?_, ?_⟩
  · simp [deleteConversation, hfind]
  · simp only [deleteConversation, hfind]
    exact mapGet_mapDelete s.conversations id
  · simp [deleteConversation, hfind]
  · have hstart : SessionInv freshSession := by
      refine ⟨?_, ?_, ?_⟩ <;> simp [freshSession, createSession, SessionInv, tokenSum]
    exact sessionInv_token_nonneg _ (sessionInv_ops ops freshSession hvalid hstart)
/-- C4 witness: deleting conversation 1 from `demoSession`, and an
add/update/delete sequence on the fresh session. -/
theorem c4_token_accounting_amended_witness :
    mapGet demoSession.conversations 1 = some { id := 1, token_count := 5 } ∧
    validOps freshSession
      [SessionOp.add 0 { id := 1, token_count := 5 },
       SessionOp.update 1 { id := 1, token_count := 7 },
       SessionOp.delete 2 1] = true ∧
    ((deleteConversation demoSession 4 1).1.token_count =
       demoSession.token_count - 5 ∧
     mapGet (deleteConversation demoSession 4 1).1.conversations 1 = none ∧
     (deleteConversation demoSession 4 1).2 = true ∧
     0 ≤ (applySessionOps freshSession
       [SessionOp.add 0 { id := 1, token_count := 5 },
        SessionOp.update 1 { id := 1, token_count := 7 },
        SessionOp.delete 2 1]).token_count) :=
  ⟨by decide, by decide,
    c4_token_accounting_amended demoSession 4 1 { id := 1, token_count := 5 }
      [SessionOp.add 0 { id := 1, token_count := 5 },
       SessionOp.update 1 { id := 1, token_count := 7 },
       SessionOp.delete 2 1]
      (by decide) (by decide)⟩

end FreeAPI
